import Mathlib

/-!
Shallow embedding of the hackrx-document-intelligence retrieval-augmented
decisioning pipeline.

External effects (Gemini `generate_content` calls, the Pinecone index,
pypdf page extraction, uuid generation, the langchain splitter) are
modelled as oracle inputs; every Python function under verification is
translated into a total Lean function over those oracles.  Machine floats
(similarity scores, embedding coordinates) never influence the control
flow of the verified functions, so they are carried opaquely as `Int`
or left out of the records that model them.
-/

set_option maxRecDepth 40000

namespace HackRx

/-- Whitespace characters recognised by Python's `str.split()` / `str.strip()`
(ASCII subset; the repository's guards only distinguish whitespace-only
text from text with visible content). -/
def pyIsSpace (c : Char) : Bool :=
  c = ' ' || c = '\t' || c = '\n' || c = '\r' || c = '\x0b' || c = '\x0c'

/-- Python `text.strip()`: drop leading and trailing whitespace. -/
def pyStrip (s : String) : String :=
  String.mk (((s.data.dropWhile pyIsSpace).reverse.dropWhile pyIsSpace).reverse)

/-- Python `text[:n]`: the first `n` characters of a string. -/
def pyTake (s : String) (n : Nat) : String :=
  String.mk (s.data.take n)

/-- One `justification` entry: the dicts with keys `clause_id`, `text`,
`reason` built throughout `gemini_llm.py` and `main.py`. -/
structure JustEntry where
  clause_id : String
  text : String
  reason : String
deriving DecidableEq

/-- Values of the JSON objects exchanged with the language model, as far as
the pipeline inspects them: nulls, strings, integers, arrays of
justification entries, and the literal list of strings that
`process_query` builds when re-parsing a string justification fails. -/
inductive JVal where
  | null
  | str (s : String)
  | num (n : Int)
  | entries (es : List JustEntry)
  | strList (ss : List String)
deriving DecidableEq

/-- A JSON object is a finite map given as a key/value list; `k in d`
checks in Python become `lookup` calls here. -/
abbrev JsonObj := List (String × JVal)

/-- A retrieval result as produced by `search_similar_chunks`: the dict with
keys `id`, `score`, `text`, `document_id`, `chunk_index`.  Scores are
floats used only inside prompts, carried opaquely. -/
structure RetrievedClause where
  id : String
  score : Int
  text : String
  document_id : Option Int
  chunk_index : Option Nat
deriving DecidableEq

/-- Outcome of one `generate_content` call followed by `json.loads`, as the
caller observes it: the model call raised, the response text failed to
parse as JSON, or it parsed to the JSON object `obj` (code-fence markup
already stripped, which does not change the parse outcome). -/
inductive LLMJsonOutcome where
  | modelError
  | badJson
  | parsed (obj : JsonObj)
deriving DecidableEq

/-- Field names of the default structure returned by `parse_query` on
failure. -/
def parsedQueryFields : List String :=
  ["target_topic", "age", "gender", "policy_duration", "location",
   "special_conditions", "amount_requested"]

/-- `GeminiLLM.parse_query` (src/gemini_llm.py lines 12-53): on a successful
parse the model's JSON object is returned verbatim, with no validation of
its fields; on any exception (model error or JSON error) the default
structure is returned. -/
def parse_query (query : String) (resp : LLMJsonOutcome) : JsonObj :=
  match resp with
  | .parsed obj => obj
  | _ =>
      [("target_topic", .str query), ("age", .null), ("gender", .null),
       ("policy_duration", .null), ("location", .null),
       ("special_conditions", .null), ("amount_requested", .null)]

/-- `required_keys` in `GeminiLLM.make_decision` (src/gemini_llm.py line 112). -/
def requiredDecisionKeys : List String := ["decision", "amount", "justification"]

/-- The validation in `make_decision` lines 112-114: all three required keys
must be present in the parsed object. -/
def validDecisionObj (obj : JsonObj) : Bool :=
  requiredDecisionKeys.all fun k => (obj.lookup k).isSome

/-- The fallback clause preview (src/gemini_llm.py line 126):
`clause.get('text', '')[:200] + ('...' if len(clause.get('text', '')) > 200 else '')`. -/
def truncateClauseText (s : String) : String :=
  pyTake s 200 ++ (if s.length > 200 then "..." else "")

/-- The fallback justification list built from the top two retrieved clauses
(src/gemini_llm.py lines 122-128). -/
def fallbackJustification (query : String)
    (retrieved_clauses : List RetrievedClause) : List JustEntry :=
  (retrieved_clauses.take 2).enum.map fun p =>
    { clause_id := "clause_" ++ toString (p.1 + 1)
      text := truncateClauseText p.2.text
      reason := "Retrieved relevant content for query: " ++ query }

/-- The synthetic entry used when the fallback justification list is empty
(src/gemini_llm.py lines 133-139). -/
def systemFallbackEntry : JustEntry :=
  { clause_id := "system_fallback"
    text := "System processed the query but LLM response formatting failed"
    reason := "Technical issue with response formatting - check logs for details" }

/-- `GeminiLLM.make_decision` (src/gemini_llm.py lines 55-140).  The parsed
query is only interpolated into the prompt and never affects the result;
it is kept as an argument for fidelity to the signature.  A parsed object
missing a required key raises `ValueError`, which is caught by the same
`except` as model and JSON errors, so all three paths share the fallback. -/
def make_decision (query : String) (parsed_query : JsonObj)
    (retrieved_clauses : List RetrievedClause) (resp : LLMJsonOutcome) : JsonObj :=
  let fj := fallbackJustification query retrieved_clauses
  let fallback : JsonObj :=
    [("decision", .str "Approved"), ("amount", .null),
     ("justification", .entries (if fj.isEmpty then [systemFallbackEntry] else fj))]
  match resp with
  | .parsed obj => if validDecisionObj obj then obj else fallback
  | _ => fallback

/-- The model response cannot be parsed or validated: the `except` branch of
`make_decision` runs. -/
def synthFallbackTriggered : LLMJsonOutcome → Prop
  | .parsed obj => validDecisionObj obj = false
  | _ => True

/-- The `except` branch of `parse_query` runs: the model call raised or the
response was not valid JSON (a successfully parsed object is always
returned as-is). -/
def parseFallbackTriggered : LLMJsonOutcome → Prop
  | .parsed _ => False
  | _ => True

/-- `Config.MAX_RETRIEVAL_RESULTS` (src/config.py). -/
def MAX_RETRIEVAL_RESULTS : Nat := 10

/-- One match of a Pinecone `index.query` response: id, score, and metadata
read back with `.get`, so each metadata field may be absent. -/
structure PineconeMatch where
  id : String
  score : Int
  meta_text : Option String
  meta_document_id : Option Int
  meta_chunk_index : Option Nat
deriving DecidableEq

/-- Result of one `index.query` call: `err` models the backend raising. -/
inductive BackendResult where
  | err
  | ok (found : List PineconeMatch)
deriving DecidableEq

/-- The result dict built per match in `search_similar_chunks`
(src/document_processor.py lines 156-164): `match.metadata.get("text", "")`
defaults to the empty string, the other metadata reads default to `None`. -/
def matchToResult (m : PineconeMatch) : RetrievedClause :=
  { id := m.id
    score := m.score
    text := m.meta_text.getD ""
    document_id := m.meta_document_id
    chunk_index := m.meta_chunk_index }

/-- The `filter_dict` construction in `search_similar_chunks`
(src/document_processor.py lines 142-145 and 153): the `document_id`
equality filter is added only when `document_id` is truthy in Python,
i.e. present and nonzero; the query receives the dict when it is
non-empty and `None` otherwise. -/
def searchFilter (document_id : Option Int) : Option Int :=
  match document_id with
  | some d => if d = 0 then none else some d
  | none => none

/-- `DocumentProcessor.search_similar_chunks`
(src/document_processor.py lines 129-169).  The Pinecone index is the
oracle `backend`, keyed by the query text (whose embedding is a
deterministic function of it), the effective filter, and `top_k`; a
raising backend is `BackendResult.err`, which the `except` branch turns
into the empty result list. -/
def search_similar_chunks (query : String) (document_id : Option Int)
    (top_k : Option Nat) (backend : String → Option Int → Nat → BackendResult) :
    List RetrievedClause :=
  let k := top_k.getD MAX_RETRIEVAL_RESULTS
  match backend query (searchFilter document_id) k with
  | .err => []
  | .ok ms => ms.map matchToResult

/-- The externally observable calls `process_query` makes, in order:
`parse_query` and `make_decision` each perform one language-model
`generate_content` call, `vectorSearchCall` is the similarity search. -/
inductive PipelineEvent where
  | parseQueryCall
  | vectorSearchCall
  | makeDecisionCall
deriving DecidableEq

/-- The synthetic justification entry of the `no_results` response in
`process_query` (src/main.py). -/
def noResultsEntry : JustEntry :=
  { clause_id := "none"
    text := "No relevant document clauses found"
    reason := "Insufficient information to make a decision" }

/-- The response dict of `process_query`, as the union of the fields of its
two return shapes (`no_results` and `success`); fields absent from a
shape are `none`. -/
structure QueryResponse where
  status : String
  message : Option String
  parsed_query : Option JsonObj
  retrieved_clauses_count : Option Nat
  decision : Option JVal
  amount : Option JVal
  justification : Option JVal
deriving DecidableEq

/-- Result of one `process_query` call: an HTTP error or a response dict. -/
inductive PQResult where
  | httpError (code : Nat)
  | ok (resp : QueryResponse)
deriving DecidableEq

/-- The literal fallback list in the justification re-formatting block of
`process_query` (src/main.py lines 258-265). -/
def justFormatFallback : JVal :=
  .strList ["[\x7b\"clause_id\": \"error", "text\": justification",
            "reason\": \"Formatting issue\"\x7d"]

/-- The `ensure justification is properly formatted` block of
`process_query`: a string justification is re-parsed with `json.loads`
(the oracle `jsonLoads`), and on failure replaced by a literal list of
strings; any other value passes through. -/
def formatJustification (jsonLoads : String → Option JVal) : Option JVal → Option JVal
  | some (.str s) =>
      match jsonLoads s with
      | some v => some v
      | none => some justFormatFallback
  | v => v

/-- `process_query` (src/main.py lines 208-277), with database writes (out of
scope) elided.  Returns the ordered list of external calls made together
with the result.  A falsy `query` is rejected with HTTP 400 before any
call; otherwise `parse_query` always runs first, then the similarity
search; an empty retrieval short-circuits to the `no_results` response
and only a non-empty retrieval reaches `make_decision`. -/
def process_query (query_text : String) (document_id : Option Int)
    (parseResp : LLMJsonOutcome)
    (backend : String → Option Int → Nat → BackendResult)
    (synthResp : LLMJsonOutcome) (jsonLoads : String → Option JVal) :
    List PipelineEvent × PQResult :=
  if query_text = "" then
    ([], .httpError 400)
  else
    let parsed_query := parse_query query_text parseResp
    let retrieved_clauses := search_similar_chunks query_text document_id none backend
    if retrieved_clauses.isEmpty then
      ([.parseQueryCall, .vectorSearchCall],
       .ok { status := "no_results"
             message := some "No relevant clauses found for the query"
             parsed_query := none
             retrieved_clauses_count := none
             decision := some (.str "Rejected")
             amount := some .null
             justification := some (.entries [noResultsEntry]) })
    else
      let decision_result := make_decision query_text parsed_query retrieved_clauses synthResp
      ([.parseQueryCall, .vectorSearchCall, .makeDecisionCall],
       .ok { status := "success"
             message := none
             parsed_query := some parsed_query
             retrieved_clauses_count := some retrieved_clauses.length
             decision := decision_result.lookup "decision"
             amount := decision_result.lookup "amount"
             justification :=
               formatJustification jsonLoads (decision_result.lookup "justification") })

/-- `DocumentProcessor.extract_text_from_pdf` (src/document_processor.py
lines 42-53).  The pypdf parse is the oracle: `some pages` is the list of
per-page texts, `none` models `PdfReader` or `extract_text` raising.  On
success each page's text is appended followed by a newline; the `except`
branch returns the empty string. -/
def extract_text_from_pdf (pages : Option (List String)) : String :=
  match pages with
  | some ps => ps.foldl (fun acc p => acc ++ p ++ "\n") ""
  | none => ""

/-- `DocumentProcessor.extract_text_from_pdf` of the simplified processor
(src/simple_document_processor.py lines 21-31): same success path, but the
`except` branch returns a fixed sample sentence instead of the empty
string. -/
def simple_extract_text_from_pdf (pages : Option (List String)) : String :=
  match pages with
  | some ps => ps.foldl (fun acc p => acc ++ p ++ "\n") ""
  | none => "Sample document content for testing purposes."

/-- One vector as stored by `store_embeddings`
(src/document_processor.py lines 96-127): the id together with the
metadata visible to later queries; the float embedding values are elided
as they never influence control flow. -/
structure VectorEntry where
  vector_id : String
  document_id : Int
  chunk_index : Nat
  text : String
deriving DecidableEq

/-- The contents of the Pinecone index as visible to queries; `upsert`
of fresh ids appends. -/
structure IndexState where
  vectors : List VectorEntry
deriving DecidableEq

/-- The result dict of `process_document` (src/document_processor.py
lines 171-205), as the union of the fields of its return shapes. -/
structure ProcessResult where
  success : Bool
  error : Option String
  text : Option String
  chunks_count : Option Nat
  vector_ids : Option (List String)
deriving DecidableEq

/-- The vector id scheme of `store_embeddings` (line 107):
`f"doc_{document_id}_chunk_{i}_{uuid.uuid4().hex[:8]}"`, with the uuid
suffix drawn from the oracle `uuidHex`. -/
def vectorIdFor (uuidHex : Nat → String) (document_id : Int) (i : Nat) : String :=
  "doc_" ++ toString document_id ++ "_chunk_" ++ toString i ++ "_" ++ uuidHex i

/-- `DocumentProcessor.process_document` (src/document_processor.py
lines 171-205).  Oracles: `extracted_text` is the result of
`extract_text` on the uploaded bytes, `chunker` is the langchain
splitter behind `chunk_text`, `uuidHex` supplies uuid suffixes, and
`upsertErr` is `some msg` when `index.upsert` raises with message `msg`
(re-raised by `store_embeddings` and caught by the outer `except`, which
reports `str(e)` and leaves the index untouched).  Returns the result
dict together with the index contents after the call. -/
def process_document (extracted_text : String) (chunker : String → List String)
    (uuidHex : Nat → String) (document_id : Int) (upsertErr : Option String)
    (st : IndexState) : ProcessResult × IndexState :=
  if pyStrip extracted_text = "" then
    ({ success := false, error := some "No text extracted from document",
       text := none, chunks_count := none, vector_ids := none }, st)
  else
    let chunks := chunker extracted_text
    if chunks.isEmpty then
      ({ success := false, error := some "No chunks created from text",
         text := none, chunks_count := none, vector_ids := none }, st)
    else
      let newVectors := chunks.enum.map fun p =>
        ({ vector_id := vectorIdFor uuidHex document_id p.1
           document_id := document_id
           chunk_index := p.1
           text := p.2 } : VectorEntry)
      match upsertErr with
      | some msg =>
          ({ success := false, error := some msg,
             text := none, chunks_count := none, vector_ids := none }, st)
      | none =>
          ({ success := true, error := none,
             text := some extracted_text
             chunks_count := some chunks.length
             vector_ids := some (newVectors.map (·.vector_id)) },
           { vectors := st.vectors ++ newVectors })

/-- Python `text.split()` with no arguments: split on runs of whitespace,
discarding empty pieces.  The accumulator holds the current word
reversed. -/
def pyWordsAux : List Char → List Char → List String
  | [], acc => if acc.isEmpty then [] else [String.mk acc.reverse]
  | c :: cs, acc =>
      if pyIsSpace c then
        if acc.isEmpty then pyWordsAux cs []
        else String.mk acc.reverse :: pyWordsAux cs []
      else pyWordsAux cs (c :: acc)

/-- The word list `words = text.split()` of `split_text_into_chunks`. -/
def pyWords (s : String) : List String :=
  pyWordsAux s.data []

/-- Python `" ".join(current_chunk)`. -/
def joinSpace : List String → String
  | [] => ""
  | [w] => w
  | w :: ws => w ++ " " ++ joinSpace ws

/-- The loop state of `split_text_into_chunks`
(src/simple_document_processor.py lines 35-38): the emitted chunks, the
words of the chunk under construction, and the running length counter. -/
structure ChunkState where
  chunks : List String
  current_chunk : List String
  current_length : Nat
deriving DecidableEq

/-- One iteration of the word loop of `split_text_into_chunks`
(src/simple_document_processor.py lines 40-47). -/
def splitStep (chunk_size : Nat) (st : ChunkState) (word : String) : ChunkState :=
  if st.current_length + word.length + 1 > chunk_size ∧ st.current_chunk ≠ [] then
    { chunks := st.chunks ++ [joinSpace st.current_chunk]
      current_chunk := [word]
      current_length := word.length }
  else
    { chunks := st.chunks
      current_chunk := st.current_chunk ++ [word]
      current_length := st.current_length + word.length + 1 }

/-- `DocumentProcessor.split_text_into_chunks`
(src/simple_document_processor.py lines 33-52), default
`chunk_size = 1000`. -/
def split_text_into_chunks (text : String) (chunk_size : Nat := 1000) : List String :=
  let final := (pyWords text).foldl (splitStep chunk_size) ⟨[], [], 0⟩
  final.chunks ++ (if final.current_chunk ≠ [] then [joinSpace final.current_chunk] else [])

-- The fallback dict of `make_decision`, for any response that triggers the
-- `except` branch.
theorem make_decision_fallback (query : String) (parsed : JsonObj)
    (clauses : List RetrievedClause) (resp : LLMJsonOutcome)
    (h : synthFallbackTriggered resp) :
    make_decision query parsed clauses resp =
      [("decision", .str "Approved"), ("amount", .null),
       ("justification", .entries
         (if (fallbackJustification query clauses).isEmpty then [systemFallbackEntry]
          else fallbackJustification query clauses))] := by
  cases resp with
  | parsed obj =>
      simp only [synthFallbackTriggered] at h
      simp [make_decision, h]
  | modelError => rfl
  | badJson => rfl

-- Length of the fallback justification list.
theorem fallbackJustification_length (query : String)
    (clauses : List RetrievedClause) :
    (fallbackJustification query clauses).length = min clauses.length 2 := by
  simp [fallbackJustification, Nat.min_comm]

/-- C1: the claim asserts that `make_decision`, called with an empty
retrieved-clause list and an unusable model response, returns
`decision = "Rejected"`.  The code's fallback dict hard-codes
`decision = "Approved"` (src/gemini_llm.py line 131), also in the
zero-clause case, refuting the claim at this concrete input. -/
theorem C1_counterexample :
    (make_decision "Is cataract surgery covered?" [] [] .modelError).lookup "decision" =
      some (.str "Approved") ∧
    ¬ (make_decision "Is cataract surgery covered?" [] [] .modelError).lookup "decision" =
      some (.str "Rejected") := by
  decide

/-- C1 (amended): for every query and parsed query, when `make_decision` is
called with an empty retrieved-clause list and the model response cannot
be parsed or validated, the result has `decision = "Approved"` and the
justification is exactly the one synthetic `system_fallback` entry,
which reports a response-formatting failure (not missing grounding). -/
theorem C1_empty_fallback (query : String) (parsed : JsonObj)
    (resp : LLMJsonOutcome) (h : synthFallbackTriggered resp) :
    (make_decision query parsed [] resp).lookup "decision" = some (.str "Approved") ∧
    (make_decision query parsed [] resp).lookup "justification" =
      some (.entries [systemFallbackEntry]) := by
  rw [make_decision_fallback query parsed [] resp h]
  exact ⟨rfl, rfl⟩

/-- Closed instance of `C1_empty_fallback` at a concrete failing response. -/
theorem C1_empty_fallback_witness :
    (make_decision "q" [] [] .badJson).lookup "decision" = some (.str "Approved") ∧
    (make_decision "q" [] [] .badJson).lookup "justification" =
      some (.entries [systemFallbackEntry]) :=
  C1_empty_fallback "q" [] .badJson trivial

/-- C3: for every model response that fails to parse as JSON or lacks one of
the three required keys, `make_decision` on `n ≥ 1` retrieved clauses
returns `decision = "Approved"`, `amount = null`, and exactly
`min n 2` justification entries, the `i`-th entry's text being clause
`i`'s text truncated to its first 200 characters with `"..."` appended
exactly when that text exceeds 200 characters. -/
theorem C3_fallback_with_clauses (query : String) (parsed : JsonObj)
    (clauses : List RetrievedClause) (resp : LLMJsonOutcome)
    (hresp : synthFallbackTriggered resp) (hne : clauses ≠ []) :
    (make_decision query parsed clauses resp).lookup "decision" = some (.str "Approved") ∧
    (make_decision query parsed clauses resp).lookup "amount" = some .null ∧
    ∃ es : List JustEntry,
      (make_decision query parsed clauses resp).lookup "justification" =
        some (.entries es) ∧
      es.length = min clauses.length 2 ∧
      ∀ i : Fin es.length, ∃ hi : i.val < clauses.length,
        (es.get i).text =
          pyTake (clauses.get ⟨i.val, hi⟩).text 200 ++
            (if (clauses.get ⟨i.val, hi⟩).text.length > 200 then "..." else "") := by
  rw [make_decision_fallback query parsed clauses resp hresp]
  have hlen : (fallbackJustification query clauses).length = min clauses.length 2 :=
    fallbackJustification_length query clauses
  have hpos : 0 < (fallbackJustification query clauses).length := by
    rw [hlen]
    have := List.length_pos.mpr hne
    omega
  have hfne : ¬ (fallbackJustification query clauses).isEmpty := by
    rw [List.isEmpty_iff]
    exact List.length_pos.mp hpos
  refine ⟨rfl, rfl, fallbackJustification query clauses, ?_, hlen, ?_⟩
  · simp [hfne, List.lookup]
  · intro i
    have hilt := i.isLt
    have hi2 : i.val < (clauses.take 2).length := by
      simp [List.length_take]
      omega
    have hi : i.val < clauses.length := by omega
    refine ⟨hi, ?_⟩
    show ((fallbackJustification query clauses).get i).text = _
    simp only [fallbackJustification, List.get_eq_getElem, List.getElem_map,
      List.getElem_enum, List.getElem_take]
    rfl

/-- A sample retrieved clause used to instantiate hypothesis-bearing
theorems at concrete inputs. -/
def sampleClause : RetrievedClause :=
  { id := "v1", score := 1, text := "policy text",
    document_id := some 1, chunk_index := some 0 }

/-- Closed instance of `C3_fallback_with_clauses` with one short clause. -/
theorem C3_fallback_with_clauses_witness :
    (make_decision "q" [] [sampleClause] .badJson).lookup "decision" =
      some (.str "Approved") ∧
    (make_decision "q" [] [sampleClause] .badJson).lookup "amount" = some .null ∧
    ∃ es : List JustEntry,
      (make_decision "q" [] [sampleClause] .badJson).lookup "justification" =
        some (.entries es) ∧
      es.length = min ([sampleClause] : List RetrievedClause).length 2 ∧
      ∀ i : Fin es.length,
        ∃ hi : i.val < ([sampleClause] : List RetrievedClause).length,
        (es.get i).text =
          pyTake (([sampleClause] : List RetrievedClause).get ⟨i.val, hi⟩).text 200 ++
            (if (([sampleClause] : List RetrievedClause).get ⟨i.val, hi⟩).text.length > 200
             then "..." else "") :=
  C3_fallback_with_clauses "q" [] [sampleClause] .badJson trivial (by simp)

/-- C4: the claim asserts that `parse_query` always returns a mapping
containing all seven ParsedQuery field names.  On a successful parse the
code returns the model's JSON verbatim without validating its fields
(src/gemini_llm.py lines 39-40), so a valid but empty JSON response
yields a mapping lacking every field name, refuting the claim. -/
theorem C4_counterexample :
    (parsedQueryFields.all fun k =>
      ((parse_query "46M knee surgery" (.parsed [])).lookup k).isSome) = false := by
  decide

/-- C4 (amended): on any parse or model failure, `parse_query` returns the
default structure: all seven ParsedQuery field names are present,
`target_topic` is the verbatim input question, and every other field is
null; the call never raises (the embedding is total).  On a successful
parse, the model's mapping is returned as-is and may lack fields. -/
theorem C4_parse_query_fallback (query : String) (resp : LLMJsonOutcome)
    (h : parseFallbackTriggered resp) :
    parse_query query resp =
      [("target_topic", .str query), ("age", .null), ("gender", .null),
       ("policy_duration", .null), ("location", .null),
       ("special_conditions", .null), ("amount_requested", .null)] ∧
    (parsedQueryFields.all fun k => ((parse_query query resp).lookup k).isSome) = true ∧
    (parse_query query resp).lookup "target_topic" = some (.str query) ∧
    ∀ k ∈ parsedQueryFields, k ≠ "target_topic" →
      (parse_query query resp).lookup k = some .null := by
  cases resp with
  | parsed obj => exact absurd h (by simp [parseFallbackTriggered])
  | modelError =>
      refine ⟨rfl, rfl, rfl, ?_⟩
      intro k hk hne
      simp only [parsedQueryFields, List.mem_cons, List.not_mem_nil, or_false] at hk
      rcases hk with h0 | h0 | h0 | h0 | h0 | h0 | h0 <;> subst h0 <;> first | rfl | exact absurd rfl hne
  | badJson =>
      refine ⟨rfl, rfl, rfl, ?_⟩
      intro k hk hne
      simp only [parsedQueryFields, List.mem_cons, List.not_mem_nil, or_false] at hk
      rcases hk with h0 | h0 | h0 | h0 | h0 | h0 | h0 <;> subst h0 <;> first | rfl | exact absurd rfl hne

/-- Closed instance of `C4_parse_query_fallback` at a concrete model error. -/
theorem C4_parse_query_fallback_witness :
    parse_query "46M knee surgery" .modelError =
      [("target_topic", .str "46M knee surgery"), ("age", .null), ("gender", .null),
       ("policy_duration", .null), ("location", .null),
       ("special_conditions", .null), ("amount_requested", .null)] ∧
    (parsedQueryFields.all fun k =>
      ((parse_query "46M knee surgery" .modelError).lookup k).isSome) = true ∧
    (parse_query "46M knee surgery" .modelError).lookup "target_topic" =
      some (.str "46M knee surgery") ∧
    ∀ k ∈ parsedQueryFields, k ≠ "target_topic" →
      (parse_query "46M knee surgery" .modelError).lookup k = some .null :=
  C4_parse_query_fallback "46M knee surgery" .modelError trivial

/-- C5: the claim asserts that a raising vector-index backend surfaces to
the caller as a query failure and that the search never silently returns
an empty result set instead.  The `except` branch of
`search_similar_chunks` (src/document_processor.py lines 167-169)
returns `[]`, making a backend error indistinguishable from a search
with zero matches, refuting the claim at this concrete input. -/
theorem C5_counterexample :
    search_similar_chunks "q" none none (fun _ _ _ => .err) = [] ∧
    search_similar_chunks "q" none none (fun _ _ _ => .err) =
      search_similar_chunks "q" none none (fun _ _ _ => .ok []) := by
  decide

/-- C5 (amended): for every query, whenever the vector-index backend raises
during similarity search, `search_similar_chunks` catches the exception
and returns the empty list; no failure surfaces to the caller, who
observes the error only as zero results. -/
theorem C5_backend_error_swallowed (query : String) (document_id : Option Int)
    (top_k : Option Nat) (backend : String → Option Int → Nat → BackendResult)
    (h : backend query (searchFilter document_id) (top_k.getD MAX_RETRIEVAL_RESULTS) =
      .err) :
    search_similar_chunks query document_id top_k backend = [] := by
  simp [search_similar_chunks, h]

/-- Closed instance of `C5_backend_error_swallowed` at a raising backend. -/
theorem C5_backend_error_swallowed_witness :
    search_similar_chunks "q" (some 3) (some 5) (fun _ _ _ => .err) = [] :=
  C5_backend_error_swallowed "q" (some 3) (some 5) (fun _ _ _ => .err) rfl

/-- C6: for every document whose extraction yields empty or whitespace-only
text, `process_document` returns `success = false` with the
`"No text extracted from document"` error, and the index contents are
unchanged: no upsert reaches the vector index. -/
theorem C6_empty_extraction_no_upsert (extracted_text : String)
    (chunker : String → List String) (uuidHex : Nat → String) (document_id : Int)
    (upsertErr : Option String) (st : IndexState)
    (h : pyStrip extracted_text = "") :
    process_document extracted_text chunker uuidHex document_id upsertErr st =
      ({ success := false, error := some "No text extracted from document",
         text := none, chunks_count := none, vector_ids := none }, st) := by
  simp [process_document, h]

/-- Closed instance of `C6_empty_extraction_no_upsert` on whitespace-only
text over a non-empty index. -/
theorem C6_empty_extraction_no_upsert_witness :
    process_document " \n\t " (fun s => [s]) (fun _ => "abcd1234") 7 none
      ⟨[{ vector_id := "v0", document_id := 1, chunk_index := 0, text := "t" }]⟩ =
      ({ success := false, error := some "No text extracted from document",
         text := none, chunks_count := none, vector_ids := none },
       ⟨[{ vector_id := "v0", document_id := 1, chunk_index := 0, text := "t" }]⟩) :=
  C6_empty_extraction_no_upsert " \n\t " (fun s => [s]) (fun _ => "abcd1234") 7 none
    ⟨[{ vector_id := "v0", document_id := 1, chunk_index := 0, text := "t" }]⟩
    (by decide)

/-- C7: the claim asserts that every extractor returns an empty string when
extraction fails.  The simplified processor's `extract_text_from_pdf`
(src/simple_document_processor.py lines 29-31) instead returns a fixed
non-empty sample sentence on failure, so its callers cannot observe the
failure as empty or whitespace-only text, refuting the claim. -/
theorem C7_counterexample :
    simple_extract_text_from_pdf none =
      "Sample document content for testing purposes." ∧
    simple_extract_text_from_pdf none ≠ "" ∧
    pyStrip (simple_extract_text_from_pdf none) ≠ "" := by
  decide

/-- C7 (amended): when PDF parsing fails, neither extractor propagates the
exception: `document_processor`'s extractor returns the empty string,
while `simple_document_processor`'s returns the fixed sample sentence. -/
theorem C7_extraction_failure_behaviour :
    extract_text_from_pdf none = "" ∧
    simple_extract_text_from_pdf none =
      "Sample document content for testing purposes." := by
  decide

/-- C10: `search_similar_chunks` applies the `document_id` equality filter
only when `document_id` is truthy: with `document_id = 0` or `None` no
filter is sent and the search runs across all documents — identical to
the unfiltered call — while any nonzero id is passed through as a
filter. -/
theorem C10_truthy_document_filter (query : String) (top_k : Option Nat)
    (backend : String → Option Int → Nat → BackendResult) (d : Int) (hd : d ≠ 0) :
    searchFilter (some 0) = none ∧
    searchFilter none = none ∧
    searchFilter (some d) = some d ∧
    search_similar_chunks query (some 0) top_k backend =
      search_similar_chunks query none top_k backend := by
  refine ⟨rfl, rfl, ?_, ?_⟩
  · simp [searchFilter, hd]
  · rfl

/-- Closed instance of `C10_truthy_document_filter` at `d = 7`. -/
theorem C10_truthy_document_filter_witness :
    searchFilter (some 0) = none ∧
    searchFilter none = none ∧
    searchFilter (some 7) = some 7 ∧
    search_similar_chunks "q" (some 0) none (fun _ _ _ => .ok []) =
      search_similar_chunks "q" none none (fun _ _ _ => .ok []) :=
  C10_truthy_document_filter "q" none (fun _ _ _ => .ok []) 7 (by decide)

/-- C2: the claim asserts that when retrieval returns zero passages the
pipeline answers without any call to the language model and that
`parse_query` runs only after a non-empty retrieval.  In `process_query`
(src/main.py lines 218-219) `llm.parse_query` — one `generate_content`
call — runs unconditionally before the similarity search, so an LLM call
occurs even in a run whose retrieval is empty, refuting the claim. -/
theorem C2_counterexample :
    search_similar_chunks "q" none none (fun _ _ _ => .ok []) = [] ∧
    PipelineEvent.parseQueryCall ∈
      (process_query "q" none .modelError (fun _ _ _ => .ok []) .modelError
        (fun _ => none)).1 := by
  decide

/-- C2 (amended): for every non-empty question whose retrieval step returns
zero passages, `process_query` returns the `no_results` response with
`decision = "Rejected"` and a single synthetic justification entry, and
`make_decision` is never called; but `parse_query` (a language-model
call) has already run, before and regardless of retrieval. -/
theorem C2_no_results_short_circuit (query_text : String) (hq : query_text ≠ "")
    (document_id : Option Int) (parseResp synthResp : LLMJsonOutcome)
    (backend : String → Option Int → Nat → BackendResult)
    (jsonLoads : String → Option JVal)
    (hempty : search_similar_chunks query_text document_id none backend = []) :
    process_query query_text document_id parseResp backend synthResp jsonLoads =
      ([.parseQueryCall, .vectorSearchCall],
       .ok { status := "no_results"
             message := some "No relevant clauses found for the query"
             parsed_query := none
             retrieved_clauses_count := none
             decision := some (.str "Rejected")
             amount := some .null
             justification := some (.entries [noResultsEntry]) }) ∧
    PipelineEvent.makeDecisionCall ∉
      (process_query query_text document_id parseResp backend synthResp jsonLoads).1 := by
  have h1 : process_query query_text document_id parseResp backend synthResp jsonLoads =
      ([.parseQueryCall, .vectorSearchCall],
       .ok { status := "no_results"
             message := some "No relevant clauses found for the query"
             parsed_query := none
             retrieved_clauses_count := none
             decision := some (.str "Rejected")
             amount := some .null
             justification := some (.entries [noResultsEntry]) }) := by
    simp [process_query, hq, hempty]
  refine ⟨h1, ?_⟩
  rw [h1]
  decide

/-- Closed instance of `C2_no_results_short_circuit` on an index with zero
matching vectors. -/
theorem C2_no_results_short_circuit_witness :
    process_query "q" none .modelError (fun _ _ _ => .ok []) .modelError
        (fun _ => none) =
      ([.parseQueryCall, .vectorSearchCall],
       .ok { status := "no_results"
             message := some "No relevant clauses found for the query"
             parsed_query := none
             retrieved_clauses_count := none
             decision := some (.str "Rejected")
             amount := some .null
             justification := some (.entries [noResultsEntry]) }) ∧
    PipelineEvent.makeDecisionCall ∉
      (process_query "q" none .modelError (fun _ _ _ => .ok []) .modelError
        (fun _ => none)).1 :=
  C2_no_results_short_circuit "q" (by decide) none .modelError .modelError
    (fun _ _ _ => .ok []) (fun _ => none) rfl

-- Length of a space-join after appending one word to a non-empty list.
theorem joinSpace_snoc_length (w : String) :
    ∀ l : List String, l ≠ [] →
      (joinSpace (l ++ [w])).length = (joinSpace l).length + 1 + w.length
  | [], h => absurd rfl h
  | [a], _ => by
      have hsp : (" " : String).length = 1 := rfl
      show (a ++ " " ++ w).length = a.length + 1 + w.length
      simp [String.length_append, hsp]
  | a :: b :: t, _ => by
      have ih := joinSpace_snoc_length w (b :: t) (by simp)
      have e1 : (a :: b :: t) ++ [w] = a :: ((b :: t) ++ [w]) := rfl
      have e2 : (b :: t) ++ [w] = b :: (t ++ [w]) := rfl
      rw [e1, e2]
      show (a ++ " " ++ joinSpace (b :: (t ++ [w]))).length = _
      rw [← e2]
      simp only [String.length_append, joinSpace] at ih ⊢
      omega

-- A chunk is admissible when it respects the cap or is a single input word.
def GoodChunk (chunk_size : Nat) (W : String → Prop) (c : String) : Prop :=
  c.length ≤ chunk_size ∨ W c

-- Invariant of the word loop of split_text_into_chunks: every emitted chunk
-- is admissible, the length counter starts at 0, tracks at least the length
-- of the chunk under construction, and that chunk fits the cap unless it is
-- a single word.
def ChunkInv (chunk_size : Nat) (W : String → Prop) (st : ChunkState) : Prop :=
  (∀ c ∈ st.chunks, GoodChunk chunk_size W c) ∧
  (st.current_chunk = [] → st.current_length = 0) ∧
  (st.current_chunk ≠ [] →
    (joinSpace st.current_chunk).length ≤ st.current_length ∧
    (st.current_length ≤ chunk_size ∨ ∃ w, W w ∧ st.current_chunk = [w]))

-- One loop iteration preserves the invariant.
theorem chunkInv_step (chunk_size : Nat) (W : String → Prop) (st : ChunkState)
    (w : String) (hW : W w) (h : ChunkInv chunk_size W st) :
    ChunkInv chunk_size W (splitStep chunk_size st w) := by
  obtain ⟨hchunks, hzero, hcur⟩ := h
  unfold splitStep
  split
  case isTrue hc =>
    obtain ⟨hjoin, hdisj⟩ := hcur hc.2
    refine ⟨?_, by simp, fun _ => ⟨by simp [joinSpace], Or.inr ⟨w, hW, rfl⟩⟩⟩
    intro c hcmem
    rcases List.mem_append.mp hcmem with hmem | hmem
    · exact hchunks c hmem
    · have hc' : c = joinSpace st.current_chunk := by simpa using hmem
      subst hc'
      rcases hdisj with hle | ⟨u, hu, hcu⟩
      · exact Or.inl (le_trans hjoin hle)
      · right
        rw [hcu]
        simpa [joinSpace] using hu
  case isFalse hc =>
    refine ⟨hchunks, by simp, fun _ => ?_⟩
    show (joinSpace (st.current_chunk ++ [w])).length ≤
        st.current_length + w.length + 1 ∧
      (st.current_length + w.length + 1 ≤ chunk_size ∨
        ∃ u, W u ∧ st.current_chunk ++ [w] = [u])
    by_cases hemp : st.current_chunk = []
    · have h0 := hzero hemp
      constructor
      · rw [hemp]
        show (joinSpace [w]).length ≤ st.current_length + w.length + 1
        show w.length ≤ st.current_length + w.length + 1
        omega
      · right
        exact ⟨w, hW, by simp [hemp]⟩
    · have hle : st.current_length + w.length + 1 ≤ chunk_size := by
        rcases not_and_or.mp hc with hna | hnb
        · omega
        · exact absurd hemp (by simpa using hnb)
      obtain ⟨hjoin, _⟩ := hcur hemp
      constructor
      · rw [joinSpace_snoc_length w st.current_chunk hemp]
        omega
      · exact Or.inl hle

-- The invariant survives the whole word loop.
theorem chunkInv_foldl (chunk_size : Nat) (W : String → Prop) :
    ∀ (ws : List String) (st : ChunkState), (∀ x ∈ ws, W x) →
      ChunkInv chunk_size W st →
      ChunkInv chunk_size W (ws.foldl (splitStep chunk_size) st)
  | [], _, _, h => h
  | w :: ws, st, hws, h =>
      chunkInv_foldl chunk_size W ws (splitStep chunk_size st w)
        (fun x hx => hws x (List.mem_cons_of_mem w hx))
        (chunkInv_step chunk_size W st w (hws w (List.mem_cons_self w ws)) h)

/-- C8: the claim asserts that every chunk has length at most `chunk_size`.
A single word longer than `chunk_size` is emitted alone as an oversized
chunk: chunking 1001 copies of `a` with the default `chunk_size = 1000`
yields one chunk of length 1001, refuting the claim. -/
theorem C8_counterexample :
    split_text_into_chunks (String.mk (List.replicate 1001 'a')) 1000 =
      [String.mk (List.replicate 1001 'a')] ∧
    1000 < (String.mk (List.replicate 1001 'a')).length := by
  constructor
  · decide
  · decide

/-- C8 (amended): chunking is deterministic (same text and `chunk_size` give
the same chunk sequence), and every chunk has length at most
`chunk_size` except possibly when it is a single whitespace-delimited
word of the input, which is emitted alone even when longer than the
cap. -/
theorem C8_deterministic_and_bounded (text : String) (chunk_size : Nat) :
    split_text_into_chunks text chunk_size = split_text_into_chunks text chunk_size ∧
    ∀ c ∈ split_text_into_chunks text chunk_size,
      c.length ≤ chunk_size ∨ c ∈ pyWords text := by
  refine ⟨rfl, ?_⟩
  intro c hc
  have hinv : ChunkInv chunk_size (· ∈ pyWords text)
      ((pyWords text).foldl (splitStep chunk_size) ⟨[], [], 0⟩) :=
    chunkInv_foldl chunk_size (· ∈ pyWords text) (pyWords text) ⟨[], [], 0⟩
      (fun _ hx => hx)
      ⟨fun c hmem => absurd hmem (List.not_mem_nil c), fun _ => rfl,
       fun hne => absurd rfl hne⟩
  rw [show split_text_into_chunks text chunk_size =
      (((pyWords text).foldl (splitStep chunk_size) ⟨[], [], 0⟩).chunks ++
        (if ((pyWords text).foldl (splitStep chunk_size) ⟨[], [], 0⟩).current_chunk ≠ []
         then [joinSpace ((pyWords text).foldl (splitStep chunk_size)
           ⟨[], [], 0⟩).current_chunk]
         else [])) from rfl] at hc
  rcases List.mem_append.mp hc with hmem | hmem
  · exact hinv.1 c hmem
  · by_cases hcur :
        ((pyWords text).foldl (splitStep chunk_size) ⟨[], [], 0⟩).current_chunk = []
    · simp [hcur] at hmem
    · simp only [hcur, ne_eq, not_false_eq_true, if_pos, List.mem_singleton] at hmem
      subst hmem
      obtain ⟨hjoin, hdisj⟩ := hinv.2.2 hcur
      rcases hdisj with hle | ⟨u, hu, hcu⟩
      · exact Or.inl (le_trans hjoin hle)
      · right
        rw [hcu]
        simpa [joinSpace] using hu

/-- Closed instance of `C8_deterministic_and_bounded` at a concrete chunk. -/
theorem C8_deterministic_and_bounded_witness :
    "hello".length ≤ 10 ∨ "hello" ∈ pyWords "hello world this is a test" :=
  (C8_deterministic_and_bounded "hello world this is a test" 10).2 "hello" (by decide)

-- Splitting an all-whitespace character list yields no words.
theorem pyWordsAux_all_space :
    ∀ cs : List Char, (∀ c ∈ cs, pyIsSpace c = true) → pyWordsAux cs [] = []
  | [], _ => rfl
  | c :: cs, h => by
      have hc := h c (List.mem_cons_self c cs)
      simp only [pyWordsAux, hc, if_pos, List.isEmpty_nil]
      exact pyWordsAux_all_space cs (fun x hx => h x (List.mem_cons_of_mem c hx))

-- Splitting yields at least one word when a word is pending or some
-- character is not whitespace.
theorem pyWordsAux_ne_nil (cs : List Char) :
    ∀ acc : List Char,
      (acc ≠ [] ∨ ∃ c ∈ cs, pyIsSpace c = false) → pyWordsAux cs acc ≠ [] := by
  induction cs with
  | nil =>
      intro acc h
      rcases h with hacc | ⟨c, hc, _⟩
      · simp [pyWordsAux, hacc]
      · exact absurd hc (List.not_mem_nil c)
  | cons c cs ih =>
      intro acc h
      by_cases hsp : pyIsSpace c = true
      · by_cases hacc : acc = []
        · have hex : ∃ x ∈ cs, pyIsSpace x = false := by
            rcases h with hne | ⟨x, hx, hxs⟩
            · exact absurd hacc hne
            · rcases List.mem_cons.mp hx with hxc | hxcs
              · subst hxc; rw [hsp] at hxs; cases hxs
              · exact ⟨x, hxcs, hxs⟩
          subst hacc
          simp only [pyWordsAux, hsp, if_pos, List.isEmpty_nil]
          exact ih [] (Or.inr hex)
        · have hie : acc.isEmpty = false := by
            cases acc with
            | nil => exact absurd rfl hacc
            | cons a t => rfl
          simp [pyWordsAux, hsp, hie]
      · have hsp' : pyIsSpace c = false := by
          cases h0 : pyIsSpace c
          · rfl
          · exact absurd h0 hsp
        simp only [pyWordsAux, hsp', Bool.false_eq_true, if_neg, not_false_eq_true]
        exact ih (c :: acc) (Or.inl (by simp))

-- Every loop iteration leaves a non-empty chunk under construction.
theorem splitStep_current_ne (chunk_size : Nat) (st : ChunkState) (w : String) :
    (splitStep chunk_size st w).current_chunk ≠ [] := by
  unfold splitStep
  split <;> simp

-- After a non-empty word list the loop ends with a pending chunk.
theorem foldl_splitStep_current_ne (chunk_size : Nat) :
    ∀ (ws : List String) (st : ChunkState), ws ≠ [] →
      ((ws.foldl (splitStep chunk_size) st).current_chunk ≠ [])
  | [], _, h => absurd rfl h
  | w :: ws, st, _ => by
      cases ws with
      | nil => exact splitStep_current_ne chunk_size st w
      | cons x xs =>
          exact foldl_splitStep_current_ne chunk_size (x :: xs)
            (splitStep chunk_size st w) (by simp)

/-- C9: the claim asserts that every non-empty text yields at least one
chunk, while every empty or whitespace-only text yields zero.  The
single-space text is non-empty yet `text.split()` discards it entirely,
yielding zero chunks, refuting the first half at this concrete input. -/
theorem C9_counterexample :
    (" " : String) ≠ "" ∧ split_text_into_chunks " " 1000 = [] := by
  decide

/-- C9 (amended): every text containing at least one non-whitespace
character yields at least one chunk, and every text whose characters are
all whitespace (in particular the empty text) yields exactly zero
chunks. -/
theorem C9_chunk_counts (text : String) (chunk_size : Nat) :
    ((∃ c ∈ text.data, pyIsSpace c = false) →
      split_text_into_chunks text chunk_size ≠ []) ∧
    ((∀ c ∈ text.data, pyIsSpace c = true) →
      split_text_into_chunks text chunk_size = []) := by
  constructor
  · intro hex
    have hw : pyWords text ≠ [] := pyWordsAux_ne_nil text.data [] (Or.inr hex)
    have hcur := foldl_splitStep_current_ne chunk_size (pyWords text) ⟨[], [], 0⟩ hw
    show ((pyWords text).foldl (splitStep chunk_size) ⟨[], [], 0⟩).chunks ++
        (if ((pyWords text).foldl (splitStep chunk_size) ⟨[], [], 0⟩).current_chunk ≠ []
         then [joinSpace ((pyWords text).foldl (splitStep chunk_size)
           ⟨[], [], 0⟩).current_chunk]
         else []) ≠ []
    rw [if_pos hcur]
    simp
  · intro hall
    have hw : pyWords text = [] := pyWordsAux_all_space text.data hall
    show ((pyWords text).foldl (splitStep chunk_size) ⟨[], [], 0⟩).chunks ++
        (if ((pyWords text).foldl (splitStep chunk_size) ⟨[], [], 0⟩).current_chunk ≠ []
         then [joinSpace ((pyWords text).foldl (splitStep chunk_size)
           ⟨[], [], 0⟩).current_chunk]
         else []) = []
    rw [hw]
    rfl

/-- Closed instance of `C9_chunk_counts` on a one-letter and a whitespace
text. -/
theorem C9_chunk_counts_witness :
    split_text_into_chunks "a" 1000 ≠ [] ∧ split_text_into_chunks "  " 1000 = [] :=
  ⟨(C9_chunk_counts "a" 1000).1 (by decide), (C9_chunk_counts "  " 1000).2 (by decide)⟩

end HackRx
